import Mathlib

/-!
Verification of the Pirates_Babylon ocean/boat scene (src/unnamed/part_000).

The source is a Babylon.js scene script.  Its numeric core — the analytic
wave field, the per-tick wave parameters, the day-night daylight factor,
the boat tick (heave, pitch, roll, translation, yaw smoothing, world wrap)
and the reflection pre-pass — is embedded below as pure functions over ℝ.
`Math.sin` / `Math.cos` are modelled by `Real.sin` / `Real.cos`.
-/

namespace PiratesBabylon

noncomputable section

/-- `WORLD_SIZE` constant (source line 54). -/
def WORLD_SIZE : ℝ := 40000

/-- `HALF_WORLD_SIZE = WORLD_SIZE / 2` (source line 55). -/
def HALF_WORLD_SIZE : ℝ := WORLD_SIZE / 2

/-- `BOAT_BASE_HEIGHT` (source line 43). -/
def BOAT_BASE_HEIGHT : ℝ := 16.7

/-- `moveSpeed` (source line 460). -/
def moveSpeed : ℝ := 0.5

/-- `turnSpeed` (source line 461). -/
def turnSpeed : ℝ := 0.005

/-- `lerp` helper (source line 470): `a + (b - a) * t`. -/
def lerp (a b t : ℝ) : ℝ := a + (b - a) * t

/-- The `waveHeight` helper (source lines 463-468), with its local
constants `waveFrequency = 0.05`, `waveAmplitude = 4.0`. -/
def waveHeight (x z time : ℝ) : ℝ :=
  (Real.sin (x * 0.05 + time) * Real.sin (z * 0.05 * 1.5 + time * 0.7)) * 4.0

/-- The inline boat-sampling wave expression (source line 550), generalized
over the live per-tick frequency `f`:
`sin(x * newFrequency + now) * sin(z * newFrequency * 1.5 + now * 0.7)`. -/
def boatWave (x z now f : ℝ) : ℝ :=
  Real.sin (x * f + now) * Real.sin (z * f * 1.5 + now * 0.7)

/-- `verticalOffset = wave * newAmplitude` (source line 551). -/
def boatVerticalOffset (x z now a f : ℝ) : ℝ :=
  boatWave x z now f * a

/-- The reference wave-height formula as the spec words it:
`a · sin(x·f + t) · sin(z·1.5f + 0.7t)`. -/
def refHeight (x z t a f : ℝ) : ℝ :=
  a * Real.sin (x * f + t) * Real.sin (z * (1.5 * f) + 0.7 * t)

/-- The water vertex shader's wave term (source line 179):
`sin(position.x * waveFrequency + time) * cos(position.z * waveFrequency * 1.5 + time * 0.7)`.
Note the `cos` on the z-term. -/
def shaderWaveTerm (x z t f : ℝ) : ℝ :=
  Real.sin (x * f + t) * Real.cos (z * f * 1.5 + t * 0.7)

/-- The shader's vertical displacement `wave * waveAmplitude` (source line 180). -/
def shaderWaveDisplacement (x z t a f : ℝ) : ℝ :=
  shaderWaveTerm x z t f * a

/-- `minAmplitude` (source line 478). -/
def minAmplitude : ℝ := 1.0

/-- `maxAmplitude` (source line 479). -/
def maxAmplitude : ℝ := 7.0

/-- `minFrequency` (source line 482). -/
def minFrequency : ℝ := 0.005

/-- `maxFrequency` (source line 483). -/
def maxFrequency : ℝ := 0.03

/-- `waveStrength = 0.5 + 0.5 * Math.sin(now * 0.05)` (source line 476). -/
def waveStrength (now : ℝ) : ℝ := 0.5 + 0.5 * Real.sin (now * 0.05)

/-- `newAmplitude = minAmplitude + (maxAmplitude - minAmplitude) * waveStrength`
(source line 480), as a function of the wave-strength scalar. -/
def newAmplitude (s : ℝ) : ℝ := minAmplitude + (maxAmplitude - minAmplitude) * s

/-- `newFrequency = minFrequency + (maxFrequency - minFrequency) * waveStrength`
(source line 484), as a function of the wave-strength scalar. -/
def newFrequency (s : ℝ) : ℝ := minFrequency + (maxFrequency - minFrequency) * s

/-- `nightDuration` (source line 508). -/
def nightDuration : ℝ := 0.5

/-- `cycle = Math.sin(timeOfDay + offset)` with `offset = Math.PI / 2`
(source lines 505-506). -/
def cycle (timeOfDay : ℝ) : ℝ := Real.sin (timeOfDay + Real.pi / 2)

/-- `inclinationFactor = Math.max(0, (cycle + nightDuration) / dayNightRatio)`
(source lines 509-511); the source's `dayNightRatio = 1.0 - nightDuration`
is inlined here. -/
def inclinationFactor (timeOfDay : ℝ) : ℝ :=
  max 0 ((cycle timeOfDay + nightDuration) / (1.0 - nightDuration))

/-- A 3-component vector over ℝ, modelling Babylon's `Vector3`. -/
structure Vec3 where
  x : ℝ
  y : ℝ
  z : ℝ

/-- Vector addition. -/
def vadd (u v : Vec3) : Vec3 := ⟨u.x + v.x, u.y + v.y, u.z + v.z⟩

/-- Vector subtraction. -/
def vsub (u v : Vec3) : Vec3 := ⟨u.x - v.x, u.y - v.y, u.z - v.z⟩

/-- Scaling a vector by a scalar, modelling `Vector3.scale`. -/
def vscale (v : Vec3) (k : ℝ) : Vec3 := ⟨v.x * k, v.y * k, v.z * k⟩

/-- Dot product, modelling `Vector3.Dot`. -/
def vdot (u v : Vec3) : ℝ := u.x * v.x + u.y * v.y + u.z * v.z

/-- The boat's forward vector (source lines 576-580):
`(cos(rotation.y), 0, sin(-rotation.y))`. -/
def forward (ry : ℝ) : Vec3 := ⟨Real.cos ry, 0, Real.sin (-ry)⟩

/-- One coordinate of the boundary wrap (source lines 597-607): a value
past `HALF_WORLD_SIZE` teleports to the opposite edge. -/
def wrapCoord (c : ℝ) : ℝ :=
  if c > HALF_WORLD_SIZE then -HALF_WORLD_SIZE
  else if c < -HALF_WORLD_SIZE then HALF_WORLD_SIZE
  else c

/-- The boundary wrap applied to a position: the source's two `if` blocks
act on `x` and on `z` independently and leave `y` alone. -/
def wrapPos (p : Vec3) : Vec3 := ⟨wrapCoord p.x, p.y, wrapCoord p.z⟩

/-- The boat state mutated each tick: `boatContainer.position`,
`boatContainer.rotation`, and the module-level `boatYaw` variable. -/
structure BoatState where
  pos : Vec3
  rot : Vec3
  yaw : ℝ

/-- The pressed-state of the four movement intents, each standing for a
key or its arrow alias (`"w" || "ArrowUp"`, etc., source lines 582-593). -/
structure InputMap where
  w : Bool
  s : Bool
  a : Bool
  d : Bool

/-- The boat part of the per-frame callback (source lines 545-607) as a
pure step function: heave (lines 546-554), pitch and roll probes and
smoothing (556-574), translation (576-587), yaw accumulation and
smoothing (588-595), and the boundary wrap (597-607).  The live wave
parameters are derived from `now` exactly as lines 476-484 do. -/
def boatTick (now dt : ℝ) (inp : InputMap) (st : BoatState) : BoatState :=
  let a := newAmplitude (waveStrength now)
  let f := newFrequency (waveStrength now)
  let p := st.pos
  let wave := Real.sin (p.x * f + now) * Real.sin (p.z * f * 1.5 + now * 0.7)
  let verticalOffset := wave * a
  let targetY := verticalOffset * 0.25 + BOAT_BASE_HEIGHT
  let y1 := lerp p.y targetY 0.05
  let pitchFrontWave := Real.sin (p.x * f + now) * Real.sin ((p.z + 5) * f * 1.5 + now * 0.7)
  let pitchBackWave := Real.sin (p.x * f + now) * Real.sin ((p.z - 5) * f * 1.5 + now * 0.7)
  let pitch := (pitchFrontWave * a - pitchBackWave * a) / (2 * 5)
  let rollRightWave := Real.sin ((p.x + 3) * f + now) * Real.sin (p.z * f * 1.5 + now * 0.7)
  let rollLeftWave := Real.sin ((p.x - 3) * f + now) * Real.sin (p.z * f * 1.5 + now * 0.7)
  let roll := (rollRightWave * a - rollLeftWave * a) / (2 * 3)
  let targetPitch := pitch * 0.1
  let targetRoll := roll * (-0.5)
  let rx := lerp st.rot.x targetPitch 0.05
  let rz := lerp st.rot.z targetRoll 0.05
  let fwd := forward st.rot.y
  let x1 := if inp.w then p.x + fwd.x * (-moveSpeed) else p.x
  let z1 := if inp.w then p.z + fwd.z * (-moveSpeed) else p.z
  let x2 := if inp.s then x1 + fwd.x * moveSpeed else x1
  let z2 := if inp.s then z1 + fwd.z * moveSpeed else z1
  let yaw1 := if inp.a then st.yaw - turnSpeed * dt else st.yaw
  let yaw2 := if inp.d then yaw1 + turnSpeed * dt else yaw1
  let ry := lerp st.rot.y yaw2 0.1
  ⟨wrapPos ⟨x2, y1, z2⟩, ⟨rx, ry, rz⟩, yaw2⟩

/-- The tick's target pitch (source lines 556-561 and 570) as a function
of the boat position, the time and the live wave parameters. -/
def targetPitchCode (x z t a f : ℝ) : ℝ :=
  ((Real.sin (x * f + t) * Real.sin ((z + 5) * f * 1.5 + t * 0.7) * a
    - Real.sin (x * f + t) * Real.sin ((z - 5) * f * 1.5 + t * 0.7) * a) / (2 * 5)) * 0.1

/-- The tick's target roll (source lines 563-568 and 571). -/
def targetRollCode (x z t a f : ℝ) : ℝ :=
  ((Real.sin ((x + 3) * f + t) * Real.sin (z * f * 1.5 + t * 0.7) * a
    - Real.sin ((x - 3) * f + t) * Real.sin (z * f * 1.5 + t * 0.7) * a) / (2 * 3)) * (-0.5)

/-- Follows the claim's wording: target pitch as the finite-difference
slope of the wave field at probe points ±5 units along the boat's
heading `(cos(ry), sin(-ry))`, scaled by gain 0.1. -/
def targetPitchHeading (x z ry t a f : ℝ) : ℝ :=
  ((refHeight (x + 5 * Real.cos ry) (z + 5 * Real.sin (-ry)) t a f
    - refHeight (x - 5 * Real.cos ry) (z - 5 * Real.sin (-ry)) t a f) / (2 * 5)) * 0.1

/-- Target pitch as the finite-difference slope of the wave field at
probe points ±5 units along the world z-axis, scaled by gain 0.1. -/
def targetPitchAxis (x z t a f : ℝ) : ℝ :=
  ((refHeight x (z + 5) t a f - refHeight x (z - 5) t a f) / (2 * 5)) * 0.1

/-- Target roll as the finite-difference slope of the wave field at
probe points ±3 units along the world x-axis, scaled by gain −0.5. -/
def targetRollAxis (x z t a f : ℝ) : ℝ :=
  ((refHeight (x + 3) z t a f - refHeight (x - 3) z t a f) / (2 * 3)) * (-0.5)

/-- A camera's pose: its position and the point it targets. -/
structure CamState where
  pos : Vec3
  target : Vec3

/-- Modelled from the spec: Babylon's `Vector3.Reflect` (library code, not
in src/), stated by the spec as `v − 2(v·n)n`. -/
def reflectVec (v n : Vec3) : Vec3 := vsub v (vscale n (2 * vdot v n))

/-- The water plane's normal `(0, 1, 0)` (source line 301). -/
def upNormal : Vec3 := ⟨0, 1, 0⟩

/-- The reflection pre-pass (source lines 297-314) restricted to the
reflection camera's pose: the previous reflection-camera pose is
overwritten (`copyFrom` / `setTarget`), never read. -/
def reflectionPrePass (cam : CamState) (_prev : CamState) : CamState :=
  let reflectedPos := reflectVec cam.pos upNormal
  let viewDir := vsub cam.target cam.pos
  let reflectedTarget := vadd reflectedPos (reflectVec viewDir upNormal)
  ⟨reflectedPos, reflectedTarget⟩

/-- Helper: the wrap leaves an in-range coordinate unchanged. -/
theorem wrapCoord_of_mem (c : ℝ) (h1 : -HALF_WORLD_SIZE ≤ c) (h2 : c ≤ HALF_WORLD_SIZE) :
    wrapCoord c = c := by
  unfold wrapCoord
  rw [if_neg (not_lt.mpr h2), if_neg (not_lt.mpr h1)]

/-- Helper: the wrap always lands inside the world. -/
theorem abs_wrapCoord_le (c : ℝ) : |wrapCoord c| ≤ HALF_WORLD_SIZE := by
  have hH : (0:ℝ) ≤ HALF_WORLD_SIZE := by norm_num [HALF_WORLD_SIZE, WORLD_SIZE]
  rw [abs_le]
  unfold wrapCoord
  split_ifs with h1 h2
  · constructor <;> linarith
  · constructor <;> linarith
  · push_neg at h1 h2
    constructor <;> linarith

/-- Claim C1: for all real x, z, t, amplitude a and frequency f, the
host-side wave computation — both the inline boat-sampling expression at
the live parameters and the `waveHeight` helper at its fixed a = 4.0,
f = 0.05 — returns the reference formula
`a · sin(x·f + t) · sin(z·1.5f + 0.7t)`. -/
theorem host_wave_matches_reference (x z t a f : ℝ) :
    boatVerticalOffset x z t a f = refHeight x z t a f
    ∧ waveHeight x z t = refHeight x z t 4.0 0.05 := by
  constructor <;>
    simp only [boatVerticalOffset, boatWave, waveHeight, refHeight] <;> ring_nf

/-- Claim C2 (evidence of the code bug): at x = 50π/3, z = 0, t = 0,
amplitude 4.0, frequency 0.03, the shader's wave displacement (which uses
`cos` on the z-term) is 4 while the host-side boat sampling (which uses
`sin`) is 0, so the visual and physical wave paths disagree. -/
theorem shader_host_diverge :
    shaderWaveDisplacement (50 * Real.pi / 3) 0 0 4.0 0.03 = 4
    ∧ boatVerticalOffset (50 * Real.pi / 3) 0 0 4.0 0.03 = 0
    ∧ shaderWaveDisplacement (50 * Real.pi / 3) 0 0 4.0 0.03
        ≠ boatVerticalOffset (50 * Real.pi / 3) 0 0 4.0 0.03 := by
  have h1 : (50 * Real.pi / 3) * (0.03:ℝ) + 0 = Real.pi / 2 := by ring
  have h2 : (0:ℝ) * 0.03 * 1.5 + 0 * 0.7 = 0 := by ring
  have e1 : shaderWaveDisplacement (50 * Real.pi / 3) 0 0 4.0 0.03 = 4 := by
    rw [shaderWaveDisplacement, shaderWaveTerm, h1, h2, Real.sin_pi_div_two, Real.cos_zero]
    norm_num
  have e2 : boatVerticalOffset (50 * Real.pi / 3) 0 0 4.0 0.03 = 0 := by
    rw [boatVerticalOffset, boatWave, h1, h2, Real.sin_pi_div_two, Real.sin_zero]
    norm_num
  refine ⟨e1, e2, ?_⟩
  rw [e1, e2]
  norm_num

/-- Claim C3 (counterexample): at boat position (0, 10/3), heading
rotation.y = 0, time 0, amplitude 1, frequency π/10, the code's target
pitch is 0 while the claim's heading-based finite difference gives 1/50,
so the probes are not taken along the boat's heading. -/
theorem pitch_probe_not_heading :
    targetPitchCode 0 (10/3) 0 1 (Real.pi/10)
      ≠ targetPitchHeading 0 (10/3) 0 0 1 (Real.pi/10) := by
  have e1 : refHeight 5 (10/3) 0 1 (Real.pi/10) = 1 := by
    have h1 : (5:ℝ) * (Real.pi/10) + 0 = Real.pi/2 := by ring
    have h2 : (10/3:ℝ) * (1.5 * (Real.pi/10)) + 0.7 * 0 = Real.pi/2 := by ring
    rw [refHeight, h1, h2, Real.sin_pi_div_two]
    norm_num
  have e2 : refHeight (-5) (10/3) 0 1 (Real.pi/10) = -1 := by
    have h1 : (-5:ℝ) * (Real.pi/10) + 0 = -(Real.pi/2) := by ring
    have h2 : (10/3:ℝ) * (1.5 * (Real.pi/10)) + 0.7 * 0 = Real.pi/2 := by ring
    rw [refHeight, h1, h2, Real.sin_neg, Real.sin_pi_div_two]
    norm_num
  have hc : targetPitchCode 0 (10/3) 0 1 (Real.pi/10) = 0 := by
    have h0 : (0:ℝ) * (Real.pi/10) + 0 = 0 := by ring
    rw [targetPitchCode, h0, Real.sin_zero]
    ring
  have a1 : (0:ℝ) + 5 * Real.cos 0 = 5 := by rw [Real.cos_zero]; norm_num
  have a2 : (10/3:ℝ) + 5 * Real.sin (-0) = 10/3 := by
    rw [neg_zero, Real.sin_zero]; norm_num
  have a3 : (0:ℝ) - 5 * Real.cos 0 = -5 := by rw [Real.cos_zero]; norm_num
  have a4 : (10/3:ℝ) - 5 * Real.sin (-0) = 10/3 := by
    rw [neg_zero, Real.sin_zero]; norm_num
  have hh : targetPitchHeading 0 (10/3) 0 0 1 (Real.pi/10) = 1/50 := by
    rw [targetPitchHeading, a1, a2, a3, a4, e1, e2]
    norm_num
  rw [hc, hh]
  norm_num

/-- Claim C3 (amended): on each tick with the boat present the target
pitch is the finite-difference slope of the wave field at probe points
±5 units along the world z-axis scaled by gain 0.1, the target roll is
the slope at probe points ±3 units along the world x-axis scaled by gain
−0.5, and pitch and roll are moved toward their targets by exponential
smoothing with factor 0.05. -/
theorem pitch_roll_axis_smoothing (now dt : ℝ) (inp : InputMap) (st : BoatState) :
    (boatTick now dt inp st).rot.x
      = lerp st.rot.x
          (targetPitchAxis st.pos.x st.pos.z now
            (newAmplitude (waveStrength now)) (newFrequency (waveStrength now))) 0.05
    ∧ (boatTick now dt inp st).rot.z
      = lerp st.rot.z
          (targetRollAxis st.pos.x st.pos.z now
            (newAmplitude (waveStrength now)) (newFrequency (waveStrength now))) 0.05
    ∧ (∀ x z t a f, targetPitchCode x z t a f = targetPitchAxis x z t a f)
    ∧ (∀ x z t a f, targetRollCode x z t a f = targetRollAxis x z t a f) := by
  refine ⟨?_, ?_, ?_, ?_⟩
  · simp only [boatTick, lerp, targetPitchAxis, refHeight]
    ring_nf
  · simp only [boatTick, lerp, targetRollAxis, refHeight]
    ring_nf
  · intro x z t a f
    simp only [targetPitchCode, targetPitchAxis, refHeight]
    ring_nf
  · intro x z t a f
    simp only [targetRollCode, targetRollAxis, refHeight]
    ring_nf

/-- Claim C4: the boundary check sends position.x past halfWorldSize
(20000) to −halfWorldSize, symmetrically for the negative bound, and the
same wrap applies independently to position.z. -/
theorem boundary_wrap_spec (p : Vec3) :
    HALF_WORLD_SIZE = 20000
    ∧ (p.x > HALF_WORLD_SIZE → (wrapPos p).x = -HALF_WORLD_SIZE)
    ∧ (p.x < -HALF_WORLD_SIZE → (wrapPos p).x = HALF_WORLD_SIZE)
    ∧ (p.z > HALF_WORLD_SIZE → (wrapPos p).z = -HALF_WORLD_SIZE)
    ∧ (p.z < -HALF_WORLD_SIZE → (wrapPos p).z = HALF_WORLD_SIZE) := by
  have hH : HALF_WORLD_SIZE = 20000 := by norm_num [HALF_WORLD_SIZE, WORLD_SIZE]
  refine ⟨hH, ?_, ?_, ?_, ?_⟩ <;> intro h <;>
    simp only [wrapPos, wrapCoord, hH] at * <;> split_ifs <;> linarith

/-- Witness for C4 at position (20001, 0, −20001). -/
theorem boundary_wrap_spec_w :
    (wrapPos ⟨20001, 0, -20001⟩).x = -HALF_WORLD_SIZE
    ∧ (wrapPos ⟨20001, 0, -20001⟩).z = HALF_WORLD_SIZE := by
  have hH : HALF_WORLD_SIZE = 20000 := by norm_num [HALF_WORLD_SIZE, WORLD_SIZE]
  exact ⟨(boundary_wrap_spec ⟨20001, 0, -20001⟩).2.1 (by rw [hH]; norm_num),
         (boundary_wrap_spec ⟨20001, 0, -20001⟩).2.2.2.2 (by rw [hH]; norm_num)⟩

/-- Claim C5: the wave strength lies in [0,1]; the derived amplitude is
1.0 at strength 0 and 7.0 at strength 1; amplitude stays in [1.0, 7.0]
and frequency in [0.005, 0.03] on [0,1]; both are monotonically
(strictly) increasing in the wave strength. -/
theorem wave_params_spec :
    (∀ now, 0 ≤ waveStrength now ∧ waveStrength now ≤ 1)
    ∧ newAmplitude 0 = minAmplitude ∧ newAmplitude 1 = maxAmplitude
    ∧ (∀ s, 0 ≤ s → s ≤ 1 →
        minAmplitude ≤ newAmplitude s ∧ newAmplitude s ≤ maxAmplitude
        ∧ minFrequency ≤ newFrequency s ∧ newFrequency s ≤ maxFrequency)
    ∧ StrictMono newAmplitude ∧ StrictMono newFrequency := by
  refine ⟨?_, ?_, ?_, ?_, ?_, ?_⟩
  · intro now
    have h1 := Real.neg_one_le_sin (now * 0.05)
    have h2 := Real.sin_le_one (now * 0.05)
    unfold waveStrength
    constructor <;> linarith
  · norm_num [newAmplitude, minAmplitude, maxAmplitude]
  · norm_num [newAmplitude, minAmplitude, maxAmplitude]
  · intro s h0 h1
    refine ⟨?_, ?_, ?_, ?_⟩ <;>
      norm_num [newAmplitude, newFrequency, minAmplitude, maxAmplitude,
        minFrequency, maxFrequency] <;> linarith
  · intro u v huv
    have h6 : (0:ℝ) < maxAmplitude - minAmplitude := by
      norm_num [minAmplitude, maxAmplitude]
    unfold newAmplitude
    nlinarith
  · intro u v huv
    have h6 : (0:ℝ) < maxFrequency - minFrequency := by
      norm_num [minFrequency, maxFrequency]
    unfold newFrequency
    nlinarith

/-- Witness for C5 at wave strength values 0, 1/2 and 1. -/
theorem wave_params_spec_w :
    (0 ≤ waveStrength 0 ∧ waveStrength 0 ≤ 1)
    ∧ minAmplitude ≤ newAmplitude (1/2)
    ∧ newFrequency (1/2) ≤ maxFrequency
    ∧ newAmplitude 0 < newAmplitude 1 := by
  refine ⟨wave_params_spec.1 0, ?_, ?_, ?_⟩
  · exact (wave_params_spec.2.2.2.1 (1/2) (by norm_num) (by norm_num)).1
  · exact (wave_params_spec.2.2.2.1 (1/2) (by norm_num) (by norm_num)).2.2.2
  · exact wave_params_spec.2.2.2.2.1 (by norm_num : (0:ℝ) < 1)

/-- Claim C6: the daylight factor is the pure function
`max(0, (sin(phase + π/2) + nightDuration)/(1 − nightDuration))` of the
phase alone, and it is 0 whenever `sin(phase + π/2) = −nightDuration`. -/
theorem daylight_pure (phase : ℝ) :
    inclinationFactor phase
      = max 0 ((Real.sin (phase + Real.pi / 2) + nightDuration) / (1 - nightDuration))
    ∧ (Real.sin (phase + Real.pi / 2) = -nightDuration → inclinationFactor phase = 0) := by
  constructor
  · norm_num [inclinationFactor, cycle, nightDuration]
  · intro h
    simp only [inclinationFactor, cycle, h, nightDuration]
    norm_num

/-- Witness for C6 at phase −2π/3, where sin(phase + π/2) = −1/2. -/
theorem daylight_pure_w :
    Real.sin (-(2 * Real.pi / 3) + Real.pi / 2) = -nightDuration
    ∧ inclinationFactor (-(2 * Real.pi / 3)) = 0 := by
  have h : Real.sin (-(2 * Real.pi / 3) + Real.pi / 2) = -nightDuration := by
    have e : -(2 * Real.pi / 3) + Real.pi / 2 = -(Real.pi / 6) := by ring
    rw [e, Real.sin_neg, Real.sin_pi_div_six, nightDuration]
    norm_num
  exact ⟨h, (daylight_pure (-(2 * Real.pi / 3))).2 h⟩

/-- Claim C7 (counterexample): at phase 0 the daylight factor is 3,
exceeding 1, so it does not stay inside [0, 1]. -/
theorem daylight_above_one : 1 < inclinationFactor 0 := by
  have e : inclinationFactor 0 = 3 := by
    simp only [inclinationFactor, cycle, zero_add, Real.sin_pi_div_two, nightDuration]
    rw [max_eq_right] <;> norm_num
  rw [e]
  norm_num

/-- Claim C7 (amended): for every phase the daylight factor lies in
[0, 3]; the lower bound 0 holds as claimed, but the ratio is unclamped
above and attains 3. -/
theorem daylight_bounds (phase : ℝ) :
    0 ≤ inclinationFactor phase ∧ inclinationFactor phase ≤ 3 := by
  constructor
  · exact le_max_left 0 _
  · unfold inclinationFactor cycle nightDuration
    apply max_le (by norm_num)
    rw [div_le_iff₀ (by norm_num : (0:ℝ) < 1.0 - 0.5)]
    have hs := Real.sin_le_one (phase + Real.pi / 2)
    linarith

/-- Claim C8: in a tick where only the "w" intent is pressed and no
boundary wrap triggers, the boat's (x, z) position moves by exactly
moveSpeed = 0.5 along the negative forward vector
(cos(rotation.y), 0, sin(−rotation.y)), independently of deltaTime. -/
theorem forward_move_spec (now dt : ℝ) (inp : InputMap) (st : BoatState)
    (hw : inp.w = true) (hs : inp.s = false) (ha : inp.a = false) (hd : inp.d = false)
    (hx1 : -HALF_WORLD_SIZE ≤ st.pos.x - moveSpeed * Real.cos st.rot.y)
    (hx2 : st.pos.x - moveSpeed * Real.cos st.rot.y ≤ HALF_WORLD_SIZE)
    (hz1 : -HALF_WORLD_SIZE ≤ st.pos.z - moveSpeed * Real.sin (-st.rot.y))
    (hz2 : st.pos.z - moveSpeed * Real.sin (-st.rot.y) ≤ HALF_WORLD_SIZE) :
    (boatTick now dt inp st).pos.x = st.pos.x - moveSpeed * Real.cos st.rot.y
    ∧ (boatTick now dt inp st).pos.z = st.pos.z - moveSpeed * Real.sin (-st.rot.y)
    ∧ (∀ dt2, boatTick now dt2 inp st = boatTick now dt inp st) := by
  have ex : st.pos.x + Real.cos st.rot.y * (-moveSpeed)
      = st.pos.x - moveSpeed * Real.cos st.rot.y := by ring
  have ez : st.pos.z + Real.sin (-st.rot.y) * (-moveSpeed)
      = st.pos.z - moveSpeed * Real.sin (-st.rot.y) := by ring
  refine ⟨?_, ?_, ?_⟩
  · simp only [boatTick, hw, hs, forward, wrapPos, if_true, Bool.false_eq_true, if_false]
    rw [ex]
    exact wrapCoord_of_mem _ hx1 hx2
  · simp only [boatTick, hw, hs, forward, wrapPos, if_true, Bool.false_eq_true, if_false]
    rw [ez]
    exact wrapCoord_of_mem _ hz1 hz2
  · intro dt2
    simp only [boatTick, ha, hd, Bool.false_eq_true, if_false]

/-- Witness for C8: a tick from the origin state with yaw 0, only "w"
pressed, at deltaTime 16, moves x by −0.5 and leaves z unchanged. -/
theorem forward_move_spec_w :
    (boatTick 0 16 ⟨true, false, false, false⟩ ⟨⟨0, 16.7, 0⟩, ⟨0, 0, 0⟩, 0⟩).pos.x
      = 0 - moveSpeed * Real.cos 0
    ∧ (boatTick 0 16 ⟨true, false, false, false⟩ ⟨⟨0, 16.7, 0⟩, ⟨0, 0, 0⟩, 0⟩).pos.z
      = 0 - moveSpeed * Real.sin (-0) := by
  have h := forward_move_spec 0 16 ⟨true, false, false, false⟩ ⟨⟨0, 16.7, 0⟩, ⟨0, 0, 0⟩, 0⟩
    rfl rfl rfl rfl
    (by norm_num [HALF_WORLD_SIZE, WORLD_SIZE, moveSpeed, Real.cos_zero])
    (by norm_num [HALF_WORLD_SIZE, WORLD_SIZE, moveSpeed, Real.cos_zero])
    (by norm_num [HALF_WORLD_SIZE, WORLD_SIZE, moveSpeed, neg_zero, Real.sin_zero])
    (by norm_num [HALF_WORLD_SIZE, WORLD_SIZE, moveSpeed, neg_zero, Real.sin_zero])
  exact ⟨h.1, h.2.1⟩

/-- Claim C9: the reflection pre-pass sets the reflection camera's pose
to pure functions of the primary camera alone — position
reflect(camera.position, (0,1,0)) and target reflectedPosition +
reflect(target − position, (0,1,0)) — so repeated pre-passes with an
unchanged primary camera give identical results; over the up normal the
reflection just negates the y component. -/
theorem reflection_prepass_pure (cam r1 r2 : CamState) :
    reflectionPrePass cam r1 = reflectionPrePass cam r2
    ∧ (reflectionPrePass cam r1).pos = reflectVec cam.pos upNormal
    ∧ (reflectionPrePass cam r1).target
        = vadd (reflectVec cam.pos upNormal) (reflectVec (vsub cam.target cam.pos) upNormal)
    ∧ (∀ v : Vec3, reflectVec v upNormal = ⟨v.x, -v.y, v.z⟩) := by
  refine ⟨rfl, rfl, rfl, ?_⟩
  intro v
  simp only [reflectVec, vsub, vscale, vdot, upNormal, Vec3.mk.injEq]
  refine ⟨by ring, by ring, by ring⟩

/-- Claim C10: at the end of every tick the boat position satisfies
|position.x| ≤ halfWorldSize and |position.z| ≤ halfWorldSize, for every
input state — the wrap re-establishes the bound each tick. -/
theorem tick_position_bounded (now dt : ℝ) (inp : InputMap) (st : BoatState) :
    |(boatTick now dt inp st).pos.x| ≤ HALF_WORLD_SIZE
    ∧ |(boatTick now dt inp st).pos.z| ≤ HALF_WORLD_SIZE := by
  constructor <;>
    · simp only [boatTick, wrapPos]
      exact abs_wrapCoord_le _

end

end PiratesBabylon
